import Mathlib

/-!
Verification of the NodeCG replicant engine (server side) against its
natural-language specification.  The definitions below are a shallow
embedding of `src/server/replicant/replicant.ts` and
`src/server/replicant/replicator.ts`; each definition's doc comment names
the source lines it embeds.
-/

namespace NodeCG

/-- A JSON-compatible value tree (spec section 3: object, array, primitive).
Numbers are modelled as integers; no claim exercises fractional arithmetic. -/
inductive JSVal where
  | null
  | bool (b : Bool)
  | num (n : Int)
  | str (s : String)
  | arr (elems : List JSVal)
  | obj (fields : List (String × JSVal))

/-- A JS value slot together with its reference identity.  `tag` models the
object reference (`tag = 0` is reserved for `undefined`, whose `val` is
`none`); `val` is the deep content.  Two slots with equal `tag` model the
same JS reference. -/
structure RVal where
  tag : Nat
  val : Option JSVal

/-- The `undefined` slot. -/
def undefinedRVal : RVal := ⟨0, none⟩

/-- JS strict equality `===` between the setter argument and the stored
value (replicant.ts line 58), modelled at reference granularity: the claims
exercise it on object values, where `===` is reference identity, and on
`undefined`, where both sides carry tag 0. -/
def strictEq (a b : RVal) : Bool := a.tag == b.tag

/-- Wrap deep content in a fresh reference: a newly created object gets the
fresh tag, while `undefined` is the canonical tag-0 slot. -/
def freshRVal (tag : Nat) (v : Option JSVal) : RVal :=
  match v with
  | none => undefinedRVal
  | some jv => ⟨tag, some jv⟩

/-- An operation record `{ path, method, args }` (spec section 4.1).  The
`newValue` field carries the payload of the `overwrite` variant, the only
variant built by the embedded code (replicant.ts lines 69-75); for other
methods it is unused. -/
structure Operation where
  path : String
  method : String
  newValue : Option JSVal := none

/-- Modelled from the spec: the outcome of the schema engine (spec section
4.3) for one schema file — the resolved digest, the compiled validator and
the schema-derived defaults.  The engine itself (file loading, ref
resolution, `generateValidator`, `schemaDefaults`) lives in the shared
replicants module, which is not under src/. -/
structure SchemaModel where
  sum : String
  validator : Option JSVal → Bool
  defaults : Option JSVal

/-- Modelled from the spec: `DEFAULT_PERSISTENCE_INTERVAL` from the shared
replicants module (not under src/); spec section 3 only requires it to be a
fixed minimum gap, and its numeric value is irrelevant to every claim. -/
def DEFAULT_PERSISTENCE_INTERVAL : Nat := 100

/-- Replicant declaration options (replicant.ts `Options`): `none` models an
absent / `undefined` field. -/
structure Options where
  defaultValue : Option JSVal := none
  persistent : Option Bool := none
  persistenceInterval : Option Nat := none
  schemaPath : Option String := none

/-- The state of one server replicant (replicant.ts lines 28-51): identity,
resolved options, revision, optional schema, the value slot, the captured
old value, the operation queue and the pending-flush flag.  `nextTag` is the
model's allocator for fresh reference tags. -/
structure RepState where
  name : String
  nsp : String
  optsDefaultValue : Option JSVal
  optsPersistent : Bool
  optsPersistenceInterval : Nat
  revision : Nat
  schema : Option SchemaModel
  value : RVal := undefinedRVal
  oldValue : Option JSVal := none
  operationQueue : List Operation := []
  pendingOperationFlush : Bool := false
  nextTag : Nat := 1

/-- The schema digest exposed on the wire (`schemaSum` field). -/
def RepState.schemaSumOpt (st : RepState) : Option String :=
  st.schema.map SchemaModel.sum

/-- The `validate` member (replicant.ts lines 217-219): the stub returns
true; when a schema was loaded it is the generated validator
(replicant.ts line 131). -/
def RepState.validate (st : RepState) (v : Option JSVal) : Bool :=
  match st.schema with
  | none => true
  | some s => s.validator v

/-- Observable effects of replicant code: a `replicant:operations`
broadcast, a local `change` event, or a throttled persistence request. -/
inductive REvent where
  | operationsBroadcast (name nsp : String) (revision : Nat) (operations : List Operation)
  | changeEvent (newValue oldValue : Option JSVal) (operations : List Operation)
  | saveRequested (nsp name : String)

/-- Recognizes `replicant:operations` broadcasts among the events. -/
def isBroadcastEv : REvent → Bool
  | .operationsBroadcast _ _ _ _ => true
  | _ => false

/-- Recognizes local `change` emissions among the events. -/
def isChangeEv : REvent → Bool
  | .changeEvent _ _ _ => true
  | _ => false

/-- `_addOperation` (replicant.ts lines 228-235): push the operation; if no
flush is pending, capture `oldValue = clone(value)` and arm the end-of-tick
flush (the scheduling itself is modelled by the task runner `runTask`). -/
def addOperation (st : RepState) (op : Operation) : RepState :=
  let st' := { st with operationQueue := st.operationQueue ++ [op] }
  if st'.pendingOperationFlush then st'
  else { st' with oldValue := st'.value.val, pendingOperationFlush := true }

/-- `_flushOperations` (replicant.ts lines 241-253): clear the pending flag,
bump `revision` by one, broadcast the queued operations, request a throttled
save, emit `change`, and empty the queue.  Events are listed in source
order. -/
def flushOperations (st : RepState) : RepState × List REvent :=
  let st1 := { st with pendingOperationFlush := false, revision := st.revision + 1 }
  ({ st1 with operationQueue := [] },
   [REvent.operationsBroadcast st1.name st1.nsp st1.revision st1.operationQueue,
    REvent.saveRequested st1.nsp st1.name,
    REvent.changeEvent st1.value.val st1.oldValue st1.operationQueue])

/-- The `value` setter (replicant.ts lines 57-76).  Same-reference
assignments return immediately; then `validate` runs — a validation failure
throws (`snd = some message`) before any field is written, so the returned
state is the pre-state in that case; otherwise the new value is cloned,
proxied (fresh reference tag) and installed, and an `overwrite` operation at
path `/` carrying the cloned content is enqueued. -/
def setValue (st : RepState) (newValue : RVal) : RepState × Option String :=
  if strictEq newValue st.value then (st, none)
  else if st.validate newValue.val = false then
    (st, some ("Invalid value rejected for replicant " ++ st.name))
  else
    let clonedNewVal := newValue.val
    let st1 := { st with value := freshRVal st.nextTag newValue.val, nextTag := st.nextTag + 1 }
    (addOperation st1 { path := "/", method := "overwrite", newValue := clonedNewVal }, none)

/-- Modelled from the spec: `applyOperation` from the shared replicants
module (`shared/replicants.shared.ts`, not under src/).  Spec section 4.1:
`overwrite` replaces the entire sub-value at `path`; application is
proxy-suspended and enqueues nothing (spec section 4.4).  Only the
root-path `overwrite` — the sole operation our theorems feed through it —
changes the value; other operations are modelled as the identity on the
value. -/
def applyOperation (st : RepState) (op : Operation) : RepState :=
  if op.method = "overwrite" && op.path = "/" then
    { st with value := freshRVal st.nextTag op.newValue, nextTag := st.nextTag + 1 }
  else st

/-- `Replicator.applyOperations` (replicator.ts lines 151-165), replicant
part: capture `oldValue = clone(value)`, apply each operation in order, bump
`revision` by one, emit `change` then the `replicant:operations` broadcast
(the trailing `saveReplicant` call is handled by the caller at replicator
level). -/
def applyOperations (st : RepState) (operations : List Operation) : RepState × List REvent :=
  let oldValue := st.value.val
  let st1 := operations.foldl applyOperation st
  let st2 := { st1 with revision := st1.revision + 1 }
  (st2,
   [REvent.changeEvent st2.value.val oldValue operations,
    REvent.operationsBroadcast st2.name st2.nsp st2.revision operations])

/-- A JS `Map` (also standing in for a string-keyed plain object where the
two registries coincide): an insertion-ordered association list. -/
structure JSMap (β : Type) where
  entries : List (String × β)

/-- JS `Map.set` on the entry list: replace the first binding of the key in
place, or append a new binding at the end. -/
def setEntries {β : Type} (k : String) (v : β) : List (String × β) → List (String × β)
  | [] => [(k, v)]
  | e :: rest => if e.fst == k then (k, v) :: rest else e :: setEntries k v rest

/-- JS `Map.get` on the entry list. -/
def getEntries {β : Type} (k : String) : List (String × β) → Option β
  | [] => none
  | e :: rest => if e.fst == k then some e.snd else getEntries k rest

/-- JS `Map.get`. -/
def JSMap.get {β : Type} (m : JSMap β) (k : String) : Option β :=
  getEntries k m.entries

/-- JS `Map.set`. -/
def JSMap.set {β : Type} (m : JSMap β) (k : String) (v : β) : JSMap β :=
  ⟨setEntries k v m.entries⟩

/-- The empty map. -/
def JSMap.empty {β : Type} : JSMap β := ⟨[]⟩

/-- JS `Object.values` applied to a `Map` instance (replicator.ts lines
224-225): a `Map` keeps its entries in internal slots, not as enumerable own
properties, so `Object.values` returns the empty array for every `Map`. -/
def objectValuesOfMap {β : Type} (_m : JSMap β) : List β := []

/-- Contents of one persistence-store cell, modelled by what the stored
string denotes: `empty` is the empty string (written for `undefined`), and
`json v` is the JSON text `JSON.stringify` produced for `v`, identified with
its parse (`JSON.parse` after `JSON.stringify` is the identity on
JSON-representable values). -/
inductive Stored where
  | empty
  | json (v : JSVal)

/-- The replicator's process-wide state (replicator.ts lines 22-26):
`declaredReplicants` is the `Map<namespace, Map<name, Replicant>>` registry,
`stores` the per-namespace persistence stores (the `LocalStorage` views of
the on-disk directories, which survive a process restart), and
`pendingSave` the weak set of replicants pending an end-of-tick save,
modelled by their `(namespace, name)` keys. -/
structure ReplicatorState where
  declaredReplicants : JSMap (JSMap RepState)
  stores : JSMap (JSMap Stored)
  pendingSave : List (String × String) := []

/-- Looks a replicant up in the registry, namespace first. -/
def lookupRep (rs : ReplicatorState) (nsp name : String) : Option RepState :=
  (rs.declaredReplicants.get nsp).bind (fun m => m.get name)

/-- Registers (or re-registers) a replicant under its `(namespace, name)`
key, as replicant.ts line 117 / replicator.ts line 142 do. -/
def registerRep (rs : ReplicatorState) (rep : RepState) : ReplicatorState :=
  let nsMap := (rs.declaredReplicants.get rep.nsp).getD JSMap.empty
  { rs with declaredReplicants := rs.declaredReplicants.set rep.nsp (nsMap.set rep.name rep) }

/-- `Replicator.saveReplicant` (replicator.ts lines 185-196): do nothing for
a non-persistent replicant or one already pending; otherwise record the
replicant as pending save (the scheduled tick body is `saveTick`). -/
def saveReplicantSchedule (rs : ReplicatorState) (rep : RepState) : ReplicatorState :=
  if rep.optsPersistent = false then rs
  else if rs.pendingSave.contains (rep.nsp, rep.name) then rs
  else { rs with pendingSave := rs.pendingSave ++ [(rep.nsp, rep.name)] }

/-- Outcome of one persistence tick for one replicant. -/
inductive SaveOutcome where
  | notPersistent
  | persisted
  | retryScheduled
  | loggedAbandoned
deriving DecidableEq, Repr

/-- The end-of-tick persistence body (replicator.ts lines 197-220) for the
replicant `rep`: remove it from the pending set, re-check persistence,
stringify the value (the empty string when `undefined`), and try
`setItem` on key `name ++ ".rep"` in the namespace store.  `writeFault =
some errName` models `setItem` throwing an error whose `name` is `errName`
(leaving the store unchanged); `none` models a successful write.  On a
fault, an error name other than `QUOTA_EXCEEDED_ERR` triggers
`replicant._requestSaveReplicant()` — a new throttled save request — while
a quota error is logged and abandoned. -/
def saveTick (rs : ReplicatorState) (rep : RepState) (writeFault : Option String) :
    ReplicatorState × SaveOutcome :=
  let rs1 := { rs with pendingSave := rs.pendingSave.filter (fun k => k != (rep.nsp, rep.name)) }
  if rep.optsPersistent = false then (rs1, SaveOutcome.notPersistent)
  else
    let value : Stored :=
      match rep.value.val with
      | none => Stored.empty
      | some v => Stored.json v
    match writeFault with
    | none =>
        let store := (rs1.stores.get rep.nsp).getD JSMap.empty
        ({ rs1 with stores := rs1.stores.set rep.nsp (store.set (rep.name ++ ".rep") value) },
         SaveOutcome.persisted)
    | some errName =>
        if (errName == "QUOTA_EXCEEDED_ERR") = false then (rs1, SaveOutcome.retryScheduled)
        else (rs1, SaveOutcome.loggedAbandoned)

/-- The content stored for a key in a namespace's store, if any. -/
def storeCell (rs : ReplicatorState) (nsp key : String) : Option Stored :=
  (rs.stores.get nsp).bind (fun s => s.get key)

/-- `Replicator.saveAllReplicants` (replicator.ts lines 223-229): iterate
`Object.values` of the registry `Map` and of each inner `Map`, calling
`saveReplicant` on each element.  (The bare identifier `declaredReplicants`
in the source resolves, at best, to the instance's `Map` field; `Object.values`
of a `Map` is empty either way.) -/
def saveAllReplicants (rs : ReplicatorState) : ReplicatorState :=
  (objectValuesOfMap rs.declaredReplicants).foldl
    (fun acc nsMap => (objectValuesOfMap nsMap).foldl saveReplicantSchedule acc) rs

/-- The `existingValue` read in the constructor (replicant.ts lines
146-150): `getItem` returns `null` for an absent key and `JSON.parse(null)`
parses the string `"null"`, so an absent key reads as JS `null`; the empty
string reads as `undefined`; any other stored text reads as its parse.
`none` is `undefined`, `some JSVal.null` is JS `null`. -/
def parseExisting (cell : Option Stored) : Option JSVal :=
  match cell with
  | none => some JSVal.null
  | some Stored.empty => none
  | some (Stored.json v) => some v

/-- The persisted-value guard (replicant.ts line 159):
`typeof existingValue !== 'undefined' && existingValue !== null`. -/
def usablePersisted : Option JSVal → Bool
  | none => false
  | some JSVal.null => false
  | some _ => true

/-- `schemaDefaults(this.schema)`: the schema-derived default values
(`undefined` when there is no schema to derive them from). -/
def schemaDefaultsOf : Option SchemaModel → Option JSVal
  | some s => s.defaults
  | none => none

/-- Result of running the `Replicant` constructor: either the (possibly
pre-existing) replicant and the updated replicator state, or the thrown
error message together with the state as of the throw point. -/
inductive CtorResult where
  | threw (msg : String) (rs : ReplicatorState)
  | ok (rep : RepState) (rs : ReplicatorState)

/-- Finishes a constructor-time assignment `this.value = ...`: on success
the (registered) replicant is returned, with `saveReplicant` additionally
scheduled when `save` is set (replicant.ts line 183); a setter throw
propagates, leaving the replicant registered in its pre-assignment state
(it was registered at line 117, before the assignment). -/
def finishCtor (rs : ReplicatorState) (save : Bool) : RepState × Option String → CtorResult
  | (rep, none) =>
      let rs1 := registerRep rs rep
      CtorResult.ok rep (if save then saveReplicantSchedule rs1 rep else rs1)
  | (rep, some msg) => CtorResult.threw msg (registerRep rs rep)

/-- The value-initialization tail of the `Replicant` constructor
(replicant.ts lines 157-184), for the replicant `rep1` whose options and
schema are already resolved and whose parsed persisted value is
`existingValue`: a persistent replicant with a usable persisted value
restores it when it passes validation and falls back to schema defaults
otherwise; in every other case the default value is validated against the
schema (when both are present; an invalid default throws), assigned, and a
first save is scheduled. -/
def ctorAssignBranch (rs2 : ReplicatorState) (rep1 : RepState)
    (existingValue : Option JSVal) : CtorResult :=
  if rep1.optsPersistent && usablePersisted existingValue then
    if rep1.validate existingValue then
      finishCtor rs2 false (setValue rep1 (freshRVal rep1.nextTag existingValue))
    else
      finishCtor rs2 false
        (setValue rep1 (freshRVal rep1.nextTag (schemaDefaultsOf rep1.schema)))
  else
    if rep1.schema.isSome && rep1.optsDefaultValue.isSome
        && (rep1.validate rep1.optsDefaultValue = false) then
      CtorResult.threw ("Invalid value rejected for replicant " ++ rep1.name) rs2
    else
      finishCtor rs2 true (setValue rep1 (freshRVal rep1.nextTag rep1.optsDefaultValue))

/-- The `Replicant` constructor (replicant.ts lines 79-210), in source
order: reject empty names and namespaces; return an already-registered
replicant unchanged; resolve the option defaults (`persistent` true,
`persistenceInterval` the shared default); load the schema from
`opts.schemaPath` through the schema engine `schemaEnv` (lines 122-139; a
`none` result covers a missing or unreadable schema file, which is logged
and non-fatal); register the replicant; initialize the namespace store if
absent; read and parse the persisted value (lines 146-150); derive
`defaultValue` from the schema when none was given (lines 153-155); then
either restore a usable persisted value — falling back to schema defaults
when it fails validation — or validate and assign the default value and
schedule a first save (lines 157-184). -/
def mkReplicant (schemaEnv : String → Option SchemaModel) (rs : ReplicatorState)
    (name nsp : String) (opts : Options) : CtorResult :=
  if name = "" then CtorResult.threw "Must supply a name when instantiating a Replicant" rs
  else if nsp = "" then CtorResult.threw "Must supply a namespace when instantiating a Replicant" rs
  else
    match lookupRep rs nsp name with
    | some existing => CtorResult.ok existing rs
    | none =>
      let persistent := opts.persistent.getD true
      let interval := opts.persistenceInterval.getD DEFAULT_PERSISTENCE_INTERVAL
      let schema := opts.schemaPath.bind schemaEnv
      let rep0 : RepState :=
        { name := name, nsp := nsp,
          optsDefaultValue := opts.defaultValue,
          optsPersistent := persistent,
          optsPersistenceInterval := interval,
          revision := 0,
          schema := schema }
      let rs1 := registerRep rs rep0
      let store := (rs1.stores.get nsp).getD JSMap.empty
      let rs2 := { rs1 with stores := rs1.stores.set nsp store }
      let existingValue := parseExisting (store.get (name ++ ".rep"))
      let rep1 :=
        if rep0.schema.isSome && rep0.optsDefaultValue.isNone then
          { rep0 with optsDefaultValue := schemaDefaultsOf rep0.schema }
        else rep0
      ctorAssignBranch rs2 rep1 existingValue

/-- `Replicator.declare` (replicator.ts lines 128-144): return the existing
replicant if one is registered, otherwise ensure the namespace map exists,
run the constructor, and register the new replicant. -/
def declare (schemaEnv : String → Option SchemaModel) (rs : ReplicatorState)
    (name nsp : String) (opts : Options) : CtorResult :=
  match lookupRep rs nsp name with
  | some existing => CtorResult.ok existing rs
  | none =>
    let rs1 :=
      if (rs.declaredReplicants.get nsp).isSome then rs
      else { rs with declaredReplicants := rs.declaredReplicants.set nsp JSMap.empty }
    match mkReplicant schemaEnv rs1 name nsp opts with
    | CtorResult.threw m rs2 => CtorResult.threw m rs2
    | CtorResult.ok rep rs2 => CtorResult.ok rep (registerRep rs2 rep)

/-- Payload of a `replicant:proposeOperations` request (replicator.ts line
66): target identity, declaration options, the client's `schemaSum` and
`revision`, and the proposed operations. -/
structure ProposeData where
  name : String
  nsp : String
  opts : Options := {}
  schemaSum : Option String := none
  revision : Nat
  operations : List Operation

/-- A rejection reply sent through the `replicant:proposeOperations`
acknowledgement callback.  The schema-mismatch reply also carries the full
schema object on the wire; the digest suffices to identify the branch
taken. -/
inductive Reply where
  | schemaMismatch (schemaSum : Option String) (value : Option JSVal) (revision : Nat)
  | revisionMismatch (value : Option JSVal) (revision : Nat)

/-- Everything observable about one run of a socket handler: the new
replicator state, the acknowledgement sent (if any), the emitted events,
whether the handler disconnected the socket, and an uncaught throw. -/
structure HandlerResult where
  state : ReplicatorState
  reply : Option Reply
  events : List REvent
  disconnected : Bool
  threw : Option String

/-- The `replicant:proposeOperations` socket handler (replicator.ts lines
66-100): declare (creating the replicant when it does not exist yet), answer
the callback with a schema-mismatch or revision-mismatch rejection computed
from the server replicant's current state — and then call `applyOperations`
unconditionally, since line 99 sits outside both rejection branches.  No
path of the handler calls `socket.disconnect`, recorded in the always-false
`disconnected` field.  The registry re-registration models the in-place
mutation of the shared replicant object. -/
def proposeOperations (schemaEnv : String → Option SchemaModel)
    (rs : ReplicatorState) (d : ProposeData) : HandlerResult :=
  match declare schemaEnv rs d.name d.nsp d.opts with
  | CtorResult.threw m rs1 =>
      { state := rs1, reply := none, events := [], disconnected := false, threw := some m }
  | CtorResult.ok rep rs1 =>
      let reply : Option Reply :=
        if rep.schema.isSome && (d.schemaSum != rep.schemaSumOpt) then
          some (Reply.schemaMismatch rep.schemaSumOpt rep.value.val rep.revision)
        else if rep.revision != d.revision then
          some (Reply.revisionMismatch rep.value.val rep.revision)
        else none
      let applied := applyOperations rep d.operations
      let rs2 := saveReplicantSchedule (registerRep rs1 applied.fst) applied.fst
      { state := rs2, reply := reply, events := applied.snd, disconnected := false,
        threw := none }

/-- One synchronous task performing the given mutations through
`_addOperation`, followed by the end-of-tick flush when one was armed
(replicant.ts lines 230-234 arm at most one `process.nextTick(flush)` per
task, guarded by `_pendingOperationFlush`). -/
def runTask (st : RepState) (ops : List Operation) : RepState × List REvent :=
  let st1 := ops.foldl addOperation st
  if st1.pendingOperationFlush then flushOperations st1
  else (st1, [])

/-- One flushed batch in a replicant's lifetime: a local end-of-tick flush
or a remotely proposed batch applied through `Replicator.applyOperations`. -/
inductive BatchEvent where
  | localFlush
  | remoteBatch (operations : List Operation)

/-- Applies one batch event to the replicant. -/
def stepBatch (st : RepState) : BatchEvent → RepState
  | BatchEvent.localFlush => (flushOperations st).fst
  | BatchEvent.remoteBatch ops => (applyOperations st ops).fst

/-- Applies a whole lifetime of batch events, oldest first. -/
def runBatches (st : RepState) (evs : List BatchEvent) : RepState :=
  evs.foldl stepBatch st

/-- The declared replicant's value content, when the constructor returned
normally. -/
def ctorValue : CtorResult → Option (Option JSVal)
  | CtorResult.ok rep _ => some rep.value.val
  | CtorResult.threw _ _ => none

/-- The declared replicant's revision, when the constructor returned
normally. -/
def ctorRevision : CtorResult → Option Nat
  | CtorResult.ok rep _ => some rep.revision
  | CtorResult.threw _ _ => none

/-- A schema engine for bundles that ship no schema files. -/
def noSchemaEnv : String → Option SchemaModel := fun _ => none

/-- A replicator with nothing declared and empty stores: the state right
after startup with a fresh `db/replicants` directory. -/
def emptyReplicatorState : ReplicatorState :=
  { declaredReplicants := ⟨[]⟩, stores := ⟨[]⟩ }

/-- The replicator state of a freshly restarted process: nothing declared,
no pending saves, and a disk carrying one persisted cell. -/
def restartState (nsp key : String) (cell : Stored) : ReplicatorState :=
  { declaredReplicants := ⟨[]⟩, stores := ⟨[(nsp, ⟨[(key, cell)]⟩)]⟩ }

/-- A declared schema-free replicant holding the number 5 at revision 1. -/
def sampleRep : RepState :=
  { name := "speed", nsp := "bundle", optsDefaultValue := none, optsPersistent := true,
    optsPersistenceInterval := 100, revision := 1, schema := none,
    value := ⟨1, some (JSVal.num 5)⟩, oldValue := none, operationQueue := [],
    pendingOperationFlush := false, nextTag := 2 }

/-- A replicator with exactly `sampleRep` declared. -/
def oneRepState : ReplicatorState :=
  { declaredReplicants := ⟨[("bundle", ⟨[("speed", sampleRep)]⟩)]⟩, stores := ⟨[]⟩ }

/-! Supporting lemmas about the embedded operations. -/

theorem getEntries_setEntries_self {β : Type} (k : String) (v : β) :
    ∀ l : List (String × β), getEntries k (setEntries k v l) = some v
  | [] => by simp [setEntries, getEntries]
  | e :: rest => by
      by_cases h : (e.fst == k) = true
      · simp [setEntries, h, getEntries]
      · simp [setEntries, h, getEntries, getEntries_setEntries_self k v rest]

theorem addOperation_queue (st : RepState) (op : Operation) :
    (addOperation st op).operationQueue = st.operationQueue ++ [op] := by
  simp only [addOperation]
  split <;> rfl

theorem addOperation_pending (st : RepState) (op : Operation) :
    (addOperation st op).pendingOperationFlush = true := by
  simp only [addOperation]
  split
  · assumption
  · rfl

theorem addOperation_fields (st : RepState) (op : Operation) :
    (addOperation st op).name = st.name ∧ (addOperation st op).nsp = st.nsp ∧
    (addOperation st op).revision = st.revision ∧ (addOperation st op).value = st.value := by
  simp only [addOperation]
  split <;> exact ⟨rfl, rfl, rfl, rfl⟩

theorem setValue_fst_revision (st : RepState) (nv : RVal) :
    (setValue st nv).fst.revision = st.revision := by
  simp only [setValue, addOperation]
  split
  · rfl
  · split
    · rfl
    · split <;> rfl
theorem setValue_fst_name (st : RepState) (nv : RVal) :
    (setValue st nv).fst.name = st.name := by
  simp only [setValue, addOperation]
  split
  · rfl
  · split
    · rfl
    · split <;> rfl

theorem setValue_fst_nsp (st : RepState) (nv : RVal) :
    (setValue st nv).fst.nsp = st.nsp := by
  simp only [setValue, addOperation]
  split
  · rfl
  · split
    · rfl
    · split <;> rfl

theorem setValue_fst_schema (st : RepState) (nv : RVal) :
    (setValue st nv).fst.schema = st.schema := by
  simp only [setValue, addOperation]
  split
  · rfl
  · split
    · rfl
    · split <;> rfl

theorem setValue_snd_none (st : RepState) (nv : RVal)
    (h : st.validate nv.val = true) : (setValue st nv).snd = none := by
  simp only [setValue]
  split
  · rfl
  · rw [h]
    simp

theorem foldl_addOperation_spec : ∀ (ops : List Operation) (st : RepState),
    (ops.foldl addOperation st).operationQueue = st.operationQueue ++ ops ∧
    (ops ≠ [] → (ops.foldl addOperation st).pendingOperationFlush = true) ∧
    (ops.foldl addOperation st).name = st.name ∧
    (ops.foldl addOperation st).nsp = st.nsp ∧
    (ops.foldl addOperation st).revision = st.revision
  | [], st => by simp
  | op :: rest, st => by
      obtain ⟨hq, hp, hn, hns, hr⟩ := foldl_addOperation_spec rest (addOperation st op)
      obtain ⟨fn, fns, fr, _⟩ := addOperation_fields st op
      rw [List.foldl_cons]
      refine ⟨?_, fun _ => ?_, ?_, ?_, ?_⟩
      · rw [hq, addOperation_queue, List.append_assoc]
        rfl
      · cases rest with
        | nil => simpa using addOperation_pending st op
        | cons b bs => exact hp (by simp)
      · rw [hn, fn]
      · rw [hns, fns]
      · rw [hr, fr]

theorem applyOperation_fields (st : RepState) (op : Operation) :
    (applyOperation st op).name = st.name ∧ (applyOperation st op).nsp = st.nsp ∧
    (applyOperation st op).revision = st.revision := by
  simp only [applyOperation]
  split <;> exact ⟨rfl, rfl, rfl⟩

theorem foldl_applyOperation_fields : ∀ (ops : List Operation) (st : RepState),
    (ops.foldl applyOperation st).name = st.name ∧
    (ops.foldl applyOperation st).nsp = st.nsp ∧
    (ops.foldl applyOperation st).revision = st.revision
  | [], st => ⟨rfl, rfl, rfl⟩
  | op :: rest, st => by
      obtain ⟨hn, hns, hr⟩ := foldl_applyOperation_fields rest (applyOperation st op)
      obtain ⟨fn, fns, fr⟩ := applyOperation_fields st op
      rw [List.foldl_cons]
      exact ⟨by rw [hn, fn], by rw [hns, fns], by rw [hr, fr]⟩

theorem applyOperations_fst_fields (st : RepState) (ops : List Operation) :
    (applyOperations st ops).fst.name = st.name ∧
    (applyOperations st ops).fst.nsp = st.nsp ∧
    (applyOperations st ops).fst.revision = st.revision + 1 := by
  obtain ⟨hn, hns, hr⟩ := foldl_applyOperation_fields ops st
  simp only [applyOperations]
  exact ⟨hn, hns, by rw [hr]⟩

theorem flushOperations_fst_revision (st : RepState) :
    (flushOperations st).fst.revision = st.revision + 1 := rfl

theorem JSMap.get_set_self {β : Type} (m : JSMap β) (k : String) (v : β) :
    (m.set k v).get k = some v :=
  getEntries_setEntries_self k v m.entries

theorem lookupRep_registerRep (rs : ReplicatorState) (rep : RepState) :
    lookupRep (registerRep rs rep) rep.nsp rep.name = some rep := by
  unfold lookupRep registerRep
  simp [JSMap.get_set_self]

theorem saveReplicantSchedule_declared (rs : ReplicatorState) (rep : RepState) :
    (saveReplicantSchedule rs rep).declaredReplicants = rs.declaredReplicants := by
  unfold saveReplicantSchedule
  split
  · rfl
  · split <;> rfl

theorem lookupRep_saveReplicantSchedule (rs : ReplicatorState) (rep : RepState)
    (nsp name : String) :
    lookupRep (saveReplicantSchedule rs rep) nsp name = lookupRep rs nsp name := by
  unfold lookupRep
  rw [saveReplicantSchedule_declared]

theorem assign_invalid_value_leaves_state_unchanged (st : RepState) (newValue : RVal)
    (href : strictEq newValue st.value = false)
    (hval : st.validate newValue.val = false) :
    setValue st newValue = (st, some ("Invalid value rejected for replicant " ++ st.name)) := by
  unfold setValue
  rw [href, hval]
  simp

theorem assign_invalid_value_leaves_state_unchanged_witness :
    setValue { sampleRep with schema := some ⟨"d1", fun _ => false, none⟩ } ⟨2, some (JSVal.num 6)⟩
      = ({ sampleRep with schema := some ⟨"d1", fun _ => false, none⟩ },
         some ("Invalid value rejected for replicant " ++ sampleRep.name)) :=
  assign_invalid_value_leaves_state_unchanged
    { sampleRep with schema := some ⟨"d1", fun _ => false, none⟩ }
    ⟨2, some (JSVal.num 6)⟩ rfl rfl

theorem assign_reference_equal_noop_deep_equal_overwrite (st : RepState) (newValue : RVal) :
    (strictEq newValue st.value = true → setValue st newValue = (st, none)) ∧
    (strictEq newValue st.value = false → st.validate newValue.val = true →
     newValue.val = st.value.val →
       (setValue st newValue).snd = none ∧
       (setValue st newValue).fst.operationQueue =
         st.operationQueue ++ [{ path := "/", method := "overwrite", newValue := newValue.val }]) := by
  constructor
  · intro h
    unfold setValue
    rw [h]
    simp
  · intro h hv _
    refine ⟨setValue_snd_none st newValue hv, ?_⟩
    simp only [setValue]
    rw [h, hv]
    simp [addOperation_queue]

theorem assign_reference_equal_noop_deep_equal_overwrite_witness :
    (setValue sampleRep sampleRep.value = (sampleRep, none)) ∧
    ((setValue sampleRep ⟨7, some (JSVal.num 5)⟩).snd = none ∧
     (setValue sampleRep ⟨7, some (JSVal.num 5)⟩).fst.operationQueue =
       sampleRep.operationQueue ++
         [{ path := "/", method := "overwrite", newValue := some (JSVal.num 5) }]) :=
  ⟨(assign_reference_equal_noop_deep_equal_overwrite sampleRep sampleRep.value).1 rfl,
   (assign_reference_equal_noop_deep_equal_overwrite sampleRep ⟨7, some (JSVal.num 5)⟩).2
     rfl rfl rfl⟩

theorem synchronous_mutations_single_flush (st : RepState) (ops : List Operation)
    (hq : st.operationQueue = []) (hp : st.pendingOperationFlush = false)
    (hne : ops ≠ []) :
    (runTask st ops).snd.filter isBroadcastEv =
      [REvent.operationsBroadcast st.name st.nsp (st.revision + 1) ops] ∧
    ((runTask st ops).snd.filter isChangeEv).length = 1 := by
  obtain ⟨hq1, hp1, hn1, hns1, hr1⟩ := foldl_addOperation_spec ops st
  simp only [runTask]
  rw [hp1 hne]
  simp only [flushOperations, if_true]
  simp [isBroadcastEv, isChangeEv, hq1, hq, hn1, hns1, hr1]

theorem synchronous_mutations_single_flush_witness :
    (runTask sampleRep
        [{ path := "/", method := "overwrite", newValue := some (JSVal.num 8) },
         { path := "/a", method := "add", newValue := some (JSVal.num 9) }]).snd.filter
        isBroadcastEv =
      [REvent.operationsBroadcast sampleRep.name sampleRep.nsp (sampleRep.revision + 1)
        [{ path := "/", method := "overwrite", newValue := some (JSVal.num 8) },
         { path := "/a", method := "add", newValue := some (JSVal.num 9) }]] ∧
    ((runTask sampleRep
        [{ path := "/", method := "overwrite", newValue := some (JSVal.num 8) },
         { path := "/a", method := "add", newValue := some (JSVal.num 9) }]).snd.filter
        isChangeEv).length = 1 :=
  synchronous_mutations_single_flush sampleRep
    [{ path := "/", method := "overwrite", newValue := some (JSVal.num 8) },
     { path := "/a", method := "add", newValue := some (JSVal.num 9) }]
    rfl rfl (by simp)

theorem saveReplicant_quota_failure_logged_not_retried :
    (saveTick emptyReplicatorState sampleRep (some "QUOTA_EXCEEDED_ERR")).snd
      = SaveOutcome.loggedAbandoned ∧
    (saveTick emptyReplicatorState sampleRep (some "QUOTA_EXCEEDED_ERR")).snd
      ≠ SaveOutcome.retryScheduled := by
  exact ⟨rfl, by decide⟩

theorem saveReplicant_failure_branching (rs : ReplicatorState) (rep : RepState)
    (errName : String) (hp : rep.optsPersistent = true) :
    (saveTick rs rep (some errName)).snd =
      if errName = "QUOTA_EXCEEDED_ERR" then SaveOutcome.loggedAbandoned
      else SaveOutcome.retryScheduled := by
  simp only [saveTick]
  rw [hp]
  by_cases h : errName = "QUOTA_EXCEEDED_ERR" <;> simp [h]

theorem saveReplicant_failure_branching_witness :
    (saveTick emptyReplicatorState sampleRep (some "EIO")).snd = SaveOutcome.retryScheduled :=
  Eq.trans
    (saveReplicant_failure_branching emptyReplicatorState sampleRep "EIO" rfl)
    (by decide)

theorem saveAllReplicants_saves_nothing :
    (∀ rs : ReplicatorState, saveAllReplicants rs = rs) ∧
    (lookupRep oneRepState "bundle" "speed").isSome = true ∧
    (saveAllReplicants oneRepState).pendingSave = [] := by
  refine ⟨fun rs => rfl, rfl, rfl⟩

theorem finishCtor_ok_fst (rs : ReplicatorState) (save : Bool) (pr : RepState × Option String)
    (rep : RepState) (rs2 : ReplicatorState)
    (h : finishCtor rs save pr = CtorResult.ok rep rs2) : rep = pr.fst := by
  obtain ⟨a, b⟩ := pr
  cases b with
  | none =>
      simp only [finishCtor] at h
      injection h with h1 h2
      exact h1.symm
  | some m =>
      simp only [finishCtor] at h
      exact CtorResult.noConfusion h

theorem finishCtor_setValue_ok_fields (rs : ReplicatorState) (save : Bool)
    (st : RepState) (x : RVal) (rep : RepState) (rs2 : ReplicatorState)
    (h : finishCtor rs save (setValue st x) = CtorResult.ok rep rs2) :
    rep.revision = st.revision ∧ rep.name = st.name ∧ rep.nsp = st.nsp := by
  have hfst := finishCtor_ok_fst _ _ _ _ _ h
  subst hfst
  exact ⟨setValue_fst_revision st x, setValue_fst_name st x, setValue_fst_nsp st x⟩

theorem finishCtor_setValue_ok_exists (rs : ReplicatorState) (save : Bool)
    (st : RepState) (x : RVal) (hv : st.validate x.val = true) :
    ∃ rs2, finishCtor rs save (setValue st x) = CtorResult.ok (setValue st x).fst rs2 := by
  have hs := setValue_snd_none st x hv
  rcases hpr : setValue st x with ⟨a, b⟩
  rw [hpr] at hs
  simp only at hs
  subst hs
  exact ⟨_, rfl⟩

theorem ctorAssignBranch_ok_fields (rs2 : ReplicatorState) (rep1 : RepState)
    (existingValue : Option JSVal) (rep : RepState) (rs3 : ReplicatorState)
    (h : ctorAssignBranch rs2 rep1 existingValue = CtorResult.ok rep rs3) :
    rep.revision = rep1.revision ∧ rep.name = rep1.name ∧ rep.nsp = rep1.nsp := by
  simp only [ctorAssignBranch] at h
  split at h
  · split at h
    · exact finishCtor_setValue_ok_fields _ _ _ _ _ _ h
    · exact finishCtor_setValue_ok_fields _ _ _ _ _ _ h
  · split at h
    · exact CtorResult.noConfusion h
    · exact finishCtor_setValue_ok_fields _ _ _ _ _ _ h

theorem validate_of_no_schema (st : RepState) (hs : st.schema = none) (v : Option JSVal) :
    st.validate v = true := by
  simp [RepState.validate, hs]

theorem ctorAssignBranch_ok_of_no_schema (rs2 : ReplicatorState) (rep1 : RepState)
    (existingValue : Option JSVal) (hs : rep1.schema = none) :
    ∃ rep rs3, ctorAssignBranch rs2 rep1 existingValue = CtorResult.ok rep rs3 := by
  simp only [ctorAssignBranch, validate_of_no_schema rep1 hs, hs, Option.isSome_none,
    Bool.false_and, Bool.false_eq_true, if_false, if_true]
  split
  · obtain ⟨rs3, hq⟩ := finishCtor_setValue_ok_exists rs2 false rep1
      (freshRVal rep1.nextTag existingValue) (validate_of_no_schema rep1 hs _)
    exact ⟨_, _, hq⟩
  · obtain ⟨rs3, hq⟩ := finishCtor_setValue_ok_exists rs2 true rep1
      (freshRVal rep1.nextTag rep1.optsDefaultValue) (validate_of_no_schema rep1 hs _)
    exact ⟨_, _, hq⟩

theorem mkReplicant_ok_props (env : String → Option SchemaModel) (rs : ReplicatorState)
    (name nsp : String) (opts : Options) (rep : RepState) (rs2 : ReplicatorState)
    (hlook : lookupRep rs nsp name = none)
    (h : mkReplicant env rs name nsp opts = CtorResult.ok rep rs2) :
    rep.revision = 0 ∧ rep.name = name ∧ rep.nsp = nsp := by
  simp only [mkReplicant, hlook] at h
  split at h
  · exact CtorResult.noConfusion h
  · split at h
    · exact CtorResult.noConfusion h
    · obtain ⟨h1, h2, h3⟩ := ctorAssignBranch_ok_fields _ _ _ _ _ h
      refine ⟨?_, ?_, ?_⟩
      · rw [h1]
        split <;> rfl
      · rw [h2]
        split <;> rfl
      · rw [h3]
        split <;> rfl

theorem mkReplicant_ok_of_no_schema (env : String → Option SchemaModel)
    (rs : ReplicatorState) (name nsp : String) (opts : Options)
    (hn : ¬(name = "")) (hns : ¬(nsp = "")) (hsp : opts.schemaPath = none)
    (hlook : lookupRep rs nsp name = none) :
    ∃ rep rs2, mkReplicant env rs name nsp opts = CtorResult.ok rep rs2 := by
  simp only [mkReplicant, hlook, if_neg hn, if_neg hns, hsp, Option.none_bind]
  exact ctorAssignBranch_ok_of_no_schema _ _ _ (by split <;> rfl)

theorem declare_ok_of_no_schema (env : String → Option SchemaModel)
    (rs : ReplicatorState) (name nsp : String) (opts : Options)
    (hn : ¬(name = "")) (hns : ¬(nsp = "")) (hsp : opts.schemaPath = none)
    (hlook : lookupRep rs nsp name = none) :
    ∃ rep rs2, declare env rs name nsp opts = CtorResult.ok rep rs2 ∧
      rep.name = name ∧ rep.nsp = nsp := by
  simp only [declare, hlook]
  by_cases hb : (rs.declaredReplicants.get nsp).isSome = true
  · rw [if_pos hb]
    obtain ⟨rep, rs2, hmk⟩ := mkReplicant_ok_of_no_schema env rs name nsp opts hn hns hsp hlook
    obtain ⟨_, h2, h3⟩ := mkReplicant_ok_props env rs name nsp opts rep rs2 hlook hmk
    rw [hmk]
    exact ⟨rep, _, rfl, h2, h3⟩
  · rw [if_neg hb]
    have hlook1 : lookupRep
        { rs with declaredReplicants := rs.declaredReplicants.set nsp JSMap.empty } nsp name
        = none := by
      unfold lookupRep
      simp only []
      rw [JSMap.get_set_self]
      rfl
    obtain ⟨rep, rs2, hmk⟩ := mkReplicant_ok_of_no_schema env _ name nsp opts hn hns hsp hlook1
    obtain ⟨_, h2, h3⟩ := mkReplicant_ok_props env _ name nsp opts rep rs2 hlook1 hmk
    rw [hmk]
    exact ⟨rep, _, rfl, h2, h3⟩

theorem stepBatch_revision (st : RepState) (e : BatchEvent) :
    (stepBatch st e).revision = st.revision + 1 := by
  cases e with
  | localFlush => exact flushOperations_fst_revision st
  | remoteBatch ops => exact (applyOperations_fst_fields st ops).2.2

theorem runBatches_revision : ∀ (evs : List BatchEvent) (st : RepState),
    (runBatches st evs).revision = st.revision + evs.length
  | [], st => rfl
  | e :: rest, st => by
      have h := runBatches_revision rest (stepBatch st e)
      simp only [runBatches, List.foldl_cons] at h ⊢
      rw [h, stepBatch_revision]
      simp only [List.length_cons]
      omega

/-- Claim C3: a freshly constructed server replicant starts at revision 0;
a local flush (`_flushOperations`) and an applied remote batch
(`Replicator.applyOperations`) each increment the revision by exactly one,
regardless of how many operations the batch contains; and over any sequence
of flushed batches the revision equals the starting revision plus the
number of batches — it is never decreased and never skips a value, these
being the only writers of `revision` in the source. -/
theorem revision_batch_dynamics :
    (∀ (env : String → Option SchemaModel) (rs : ReplicatorState) (name nsp : String)
        (opts : Options) (rep : RepState) (rs2 : ReplicatorState),
        lookupRep rs nsp name = none →
        mkReplicant env rs name nsp opts = CtorResult.ok rep rs2 → rep.revision = 0) ∧
    (∀ st : RepState, (flushOperations st).fst.revision = st.revision + 1) ∧
    (∀ (st : RepState) (ops : List Operation),
        (applyOperations st ops).fst.revision = st.revision + 1) ∧
    (∀ (st : RepState) (evs : List BatchEvent),
        (runBatches st evs).revision = st.revision + evs.length) :=
  ⟨fun env rs name nsp opts rep rs2 hlook h =>
      (mkReplicant_ok_props env rs name nsp opts rep rs2 hlook h).1,
   flushOperations_fst_revision,
   fun st ops => (applyOperations_fst_fields st ops).2.2,
   fun st evs => runBatches_revision evs st⟩

/-- Witness for C3: declaring a fresh replicant yields revision 0. -/
theorem revision_batch_dynamics_witness :
    ∃ rep rs2, mkReplicant noSchemaEnv emptyReplicatorState "speed" "bundle" {}
        = CtorResult.ok rep rs2 ∧ rep.revision = 0 := by
  refine ⟨_, _, rfl, ?_⟩
  exact revision_batch_dynamics.1 noSchemaEnv emptyReplicatorState "speed" "bundle" {} _ _ rfl rfl

/-- A proposal naming a replicant that has never been declared. -/
def undeclaredData : ProposeData :=
  { name := "fresh", nsp := "newbundle", revision := 0, operations := [] }

/-- Claim C9, counterexample: a `replicant:proposeOperations` for a
replicant not yet declared on the server neither disconnects the socket
nor leaves the replicant undeclared — the handler implicitly creates it
through `declare`, refuting the claim at this concrete input. -/
theorem undeclared_propose_counterexample :
    (proposeOperations noSchemaEnv emptyReplicatorState undeclaredData).disconnected = false ∧
    (lookupRep (proposeOperations noSchemaEnv emptyReplicatorState undeclaredData).state
        "newbundle" "fresh").isSome = true :=
  ⟨rfl, rfl⟩

/-- Claim C9 as amended: for every inbound `replicant:proposeOperations`
naming a replicant not yet declared on the server (with a well-formed name
and namespace, and no schema path in its options), the server implicitly
declares the replicant — after the handler it is registered under the
requested namespace and name — and the offending socket is not
disconnected; no protocol-error path exists in the handler. -/
theorem undeclared_propose_implicitly_declares (env : String → Option SchemaModel)
    (rs : ReplicatorState) (d : ProposeData)
    (hn : ¬(d.name = "")) (hns : ¬(d.nsp = "")) (hsp : d.opts.schemaPath = none)
    (hlook : lookupRep rs d.nsp d.name = none) :
    (proposeOperations env rs d).disconnected = false ∧
    (lookupRep (proposeOperations env rs d).state d.nsp d.name).isSome = true := by
  obtain ⟨rep, rs2, hdecl, hname, hnsp⟩ :=
    declare_ok_of_no_schema env rs d.name d.nsp d.opts hn hns hsp hlook
  simp only [proposeOperations, hdecl]
  refine ⟨by trivial, ?_⟩
  rw [lookupRep_saveReplicantSchedule]
  obtain ⟨an, ans, _⟩ := applyOperations_fst_fields rep d.operations
  have key := lookupRep_registerRep rs2 (applyOperations rep d.operations).fst
  rw [an, ans, hname, hnsp] at key
  rw [key]
  rfl

/-- Witness for the amended C9 at a concrete undeclared target. -/
theorem undeclared_propose_implicitly_declares_witness :
    (proposeOperations noSchemaEnv emptyReplicatorState undeclaredData).disconnected = false ∧
    (lookupRep (proposeOperations noSchemaEnv emptyReplicatorState undeclaredData).state
        undeclaredData.nsp undeclaredData.name).isSome = true :=
  undeclared_propose_implicitly_declares noSchemaEnv emptyReplicatorState undeclaredData
    (by decide) (by decide) rfl rfl

/-- A persisted non-null JSON value passes the restore guard. -/
theorem usablePersisted_some (v : JSVal) (hv : v ≠ JSVal.null) :
    usablePersisted (some v) = true := by
  cases v
  · exact absurd rfl hv
  all_goals rfl

theorem saveTick_writes_value (rs : ReplicatorState) (rep : RepState)
    (hp : rep.optsPersistent = true) (v : JSVal) (hval : rep.value.val = some v) :
    storeCell (saveTick rs rep none).fst rep.nsp (rep.name ++ ".rep")
      = some (Stored.json v) := by
  simp only [saveTick, hp, hval]
  simp only [storeCell]
  simp [JSMap.get_set_self]

theorem saveTick_writes_empty (rs : ReplicatorState) (rep : RepState)
    (hp : rep.optsPersistent = true) (hval : rep.value.val = none) :
    storeCell (saveTick rs rep none).fst rep.nsp (rep.name ++ ".rep")
      = some Stored.empty := by
  simp only [saveTick, hp, hval]
  simp only [storeCell]
  simp [JSMap.get_set_self]

theorem declare_restores_nonnull (v : JSVal) (hv : v ≠ JSVal.null) (name nsp : String)
    (hn : ¬(name = "")) (hns : ¬(nsp = "")) :
    ctorValue (declare noSchemaEnv (restartState nsp (name ++ ".rep") (Stored.json v))
        name nsp {}) = some (some v) := by
  have hg := usablePersisted_some v hv
  simp [declare, mkReplicant, ctorAssignBranch, restartState, lookupRep, JSMap.get, JSMap.set,
    JSMap.empty, getEntries, setEntries, parseExisting, RepState.validate, setValue,
    addOperation, finishCtor, ctorValue, registerRep, freshRVal, strictEq, undefinedRVal,
    schemaDefaultsOf, hg, hn, hns]

/-- Claim C7 as amended: for every persistent replicant holding a
JSON-representable value v, a successful save writes the serialization of v
(the empty string when v is undefined) under key `name ++ ".rep"` in the
namespace store; and for every v other than null, a subsequent
re-declaration in a fresh process reading this key back restores a value
deep-equal to v.  (A stored null — like the empty string, which parses back
to undefined — fails the `existingValue !== null` restore guard, so the
declaration falls back to the default value instead: see the
counterexample.) -/
theorem persistence_roundtrip_nonnull (v : JSVal) (hv : v ≠ JSVal.null) :
    (∀ (rs : ReplicatorState) (rep : RepState), rep.optsPersistent = true →
        rep.value.val = some v →
        storeCell (saveTick rs rep none).fst rep.nsp (rep.name ++ ".rep")
          = some (Stored.json v)) ∧
    (∀ (rs : ReplicatorState) (rep : RepState), rep.optsPersistent = true →
        rep.value.val = none →
        storeCell (saveTick rs rep none).fst rep.nsp (rep.name ++ ".rep")
          = some Stored.empty) ∧
    (∀ name nsp : String, ¬(name = "") → ¬(nsp = "") →
        ctorValue (declare noSchemaEnv (restartState nsp (name ++ ".rep") (Stored.json v))
            name nsp {}) = some (some v)) :=
  ⟨fun rs rep hp hval => saveTick_writes_value rs rep hp v hval,
   fun rs rep hp hval => saveTick_writes_empty rs rep hp hval,
   fun name nsp hn hns => declare_restores_nonnull v hv name nsp hn hns⟩

/-- Witness for the amended C7 at value 5 on the sample replicant. -/
theorem persistence_roundtrip_nonnull_witness :
    storeCell (saveTick emptyReplicatorState sampleRep none).fst sampleRep.nsp
        (sampleRep.name ++ ".rep") = some (Stored.json (JSVal.num 5)) ∧
    ctorValue (declare noSchemaEnv
        (restartState "bundle" ("speed" ++ ".rep") (Stored.json (JSVal.num 5)))
        "speed" "bundle" {}) = some (some (JSVal.num 5)) :=
  ⟨(persistence_roundtrip_nonnull (JSVal.num 5) (fun h => JSVal.noConfusion h)).1
      emptyReplicatorState sampleRep rfl rfl,
   (persistence_roundtrip_nonnull (JSVal.num 5) (fun h => JSVal.noConfusion h)).2.2
      "speed" "bundle" (by decide) (by decide)⟩

/-- A persistent replicant whose current value is JSON null. -/
def nullValueRep : RepState :=
  { name := "speed", nsp := "bundle", optsDefaultValue := none, optsPersistent := true,
    optsPersistenceInterval := 100, revision := 0, schema := none,
    value := ⟨1, some JSVal.null⟩, oldValue := none, operationQueue := [],
    pendingOperationFlush := false, nextTag := 2 }

/-- Claim C7, counterexample: saving a replicant whose value is null writes
the JSON text for null under the key `speed.rep`, but the re-declaration
that reads it back restores undefined, not null — the constructor guard
`existingValue !== null` discards the persisted value and applies the
(undefined) default, so the round trip fails at the value null. -/
theorem persisted_null_not_restored :
    storeCell (saveTick emptyReplicatorState nullValueRep none).fst "bundle" ("speed" ++ ".rep")
      = some (Stored.json JSVal.null) ∧
    ctorValue (declare noSchemaEnv
        (restartState "bundle" ("speed" ++ ".rep") (Stored.json JSVal.null))
        "speed" "bundle" {}) = some none :=
  ⟨rfl, rfl⟩

/-- A proposal for `sampleRep` carrying a stale revision (client at 0,
server at 1) and one root overwrite. -/
def staleData : ProposeData :=
  { name := "speed", nsp := "bundle", revision := 0,
    operations := [{ path := "/", method := "overwrite", newValue := some (JSVal.num 7) }] }

/-- Claim C1 (code-bug evidence): a `replicant:proposeOperations` request
whose revision does not match the server replicant is answered with the
revision-mismatch rejection carrying the old value and revision — and the
proposed operations are applied anyway, because the `applyOperations` call
(replicator.ts line 99) sits outside the rejection branches: after the
handler runs, the server replicant sits at revision 2 with the proposed
value 7 installed, instead of the unchanged revision 1 / value 5 the claim
requires. -/
theorem proposeOperations_rejected_still_applied :
    (proposeOperations noSchemaEnv oneRepState staleData).reply
      = some (Reply.revisionMismatch (some (JSVal.num 5)) 1) ∧
    ((lookupRep (proposeOperations noSchemaEnv oneRepState staleData).state
        "bundle" "speed").map RepState.revision) = some 2 ∧
    ((lookupRep (proposeOperations noSchemaEnv oneRepState staleData).state
        "bundle" "speed").map (fun r => r.value.val)) = some (some (JSVal.num 7)) :=
  ⟨rfl, rfl, rfl⟩

/-- Claim C10: for every `replicant:proposeOperations` request targeting a
server replicant that has no schema, the schema-mismatch branch is never
taken — whatever `schemaSum` the client supplies — and the reply is exactly
the revision check outcome: the revision-mismatch rejection when the
revisions differ, and no rejection otherwise. -/
theorem no_schema_only_revision_check_rejects (env : String → Option SchemaModel)
    (rs : ReplicatorState) (d : ProposeData) (rep : RepState)
    (hlook : lookupRep rs d.nsp d.name = some rep) (hs : rep.schema = none) :
    (proposeOperations env rs d).reply =
      if rep.revision = d.revision then none
      else some (Reply.revisionMismatch rep.value.val rep.revision) := by
  simp only [proposeOperations, declare]
  rw [hlook]
  simp only [hs, Option.isSome_none, Bool.false_and, Bool.false_eq_true, if_false]
  by_cases h : rep.revision = d.revision <;> simp [h]

/-- Witness for C10 at the sample replicant and the stale proposal. -/
theorem no_schema_only_revision_check_rejects_witness :
    (proposeOperations noSchemaEnv oneRepState staleData).reply =
      if sampleRep.revision = staleData.revision then none
      else some (Reply.revisionMismatch sampleRep.value.val sampleRep.revision) :=
  no_schema_only_revision_check_rejects noSchemaEnv oneRepState staleData sampleRep rfl rfl

end NodeCG
